import Mathlib

/-!
Verification of the `icon.py` Tauri icon generator.

The Python program is embedded shallowly:

* Images (`Img`) carry width, height, a PIL mode tag and a pixel function
  giving each pixel's RGBA interpretation.  Pillow's `convert("RGBA")`
  changes only the mode tag: the pixel function already stores the RGBA
  view of the pixel data, which is exactly what `convert` exposes.
* `Image.resize(..., LANCZOS)` is modelled by `resize`: exact output
  dimensions and mode; the pixel values use point sampling because no
  claim depends on the interpolation kernel, only on dimensions and mode.
* `ImageDraw.ellipse((0, 0, w, h), fill=255)` on a fresh `L` mask is
  modelled by the standard rasterisation convention: a pixel is painted
  iff its centre `(x + 1/2, y + 1/2)` lies inside the ellipse inscribed
  in the bounding box `[0, w] × [0, h]` (predicate `inEllipseMask`).
* `Image.save(..., format="ICO", sizes=s)` follows Pillow's documented
  ICO behaviour: requested sizes larger than the source image or larger
  than 256 are ignored (`icoEmbeddedSizes`).
* Side effects (file reads, file writes, `shutil.copy2`, `shutil.rmtree`,
  `print`) are recorded as an event trace (`Ev`); `os.makedirs` /
  `create_directory` are not traced since directories are implied by the
  files written inside them.  `sys.exit` / process exit codes are the
  numeric results of `generate_icons` / `main`.
* The runtime environment (`Env`) fixes what the outside world does: does
  the input file exist, does it decode, what image it holds, what
  `platform.system()` returns, and how `subprocess.run(["iconutil", ...],
  check=True)` behaves (success, `CalledProcessError` on a non-zero exit,
  or `FileNotFoundError` when the executable is missing).
-/

/-- A PIL image mode tag (the modes relevant to this program). -/
inductive PyMode where
  | RGBA
  | RGB
  | L
  | P
deriving DecidableEq, Repr

/-- One pixel in RGBA interpretation. -/
structure RGBAv where
  r : Nat
  g : Nat
  b : Nat
  a : Nat
deriving DecidableEq, Repr

/-- An in-memory PIL image: dimensions, mode tag, and the RGBA view of
the pixel data (total function; only `x < width`, `y < height` matter). -/
structure Img where
  width : Nat
  height : Nat
  mode : PyMode
  px : Nat → Nat → RGBAv

/-- `img.convert("RGBA")`: the RGBA view of the pixels is unchanged, the
mode becomes RGBA. -/
def Img.convertRGBA (img : Img) : Img :=
  { img with mode := .RGBA }

/-- `img.resize((w, h), Image.Resampling.LANCZOS)`: exact target
dimensions, same mode.  Pixels are point-sampled from the source; the
Lanczos kernel is abstracted since no claim inspects interpolated
values. -/
def Img.resize (img : Img) (w h : Nat) : Img :=
  { width := w
    height := h
    mode := img.mode
    px := fun x y => img.px (x * img.width / w) (y * img.height / h) }

/-- Pixel-centre rasterisation of `ImageDraw.ellipse((0, 0, w, h),
fill=255)`: pixel `(x, y)` is painted iff its centre lies in the ellipse
inscribed in `[0, w] × [0, h]`, i.e.
`((2x+1-w)·h)² + ((2y+1-h)·w)² ≤ (w·h)²`. -/
def inEllipseMask (w h x y : Nat) : Bool :=
  ((2 * (x : Int) + 1 - w) * h) ^ 2 + ((2 * (y : Int) + 1 - h) * w) ^ 2 ≤ ((w : Int) * h) ^ 2

/-- `make_round_image(image)`: a fresh RGBA canvas (all pixels
`(0,0,0,0)`), then `paste(image, mask=mask)` where the mask is the filled
ellipse.  Where the binary mask is 255 the source pixel (colour and
alpha) is copied; elsewhere the canvas keeps `(0,0,0,0)`. -/
def make_round_image (image : Img) : Img :=
  { width := image.width
    height := image.height
    mode := .RGBA
    px := fun x y =>
      if inEllipseMask image.width image.height x y then image.px x y
      else ⟨0, 0, 0, 0⟩ }

/-- Contents of a file written by the program (or, for `.icns`, by the
`iconutil` subprocess it spawns: such a bundle carries the sizes of the
staged renditions it was built from). -/
inductive FileContent where
  | png (img : Img)
  | ico (img : Img) (sizes : List (Nat × Nat))
  | icns (sizes : List (Nat × Nat))

/-- Pillow's documented ICO save behaviour: the set of requested sizes,
minus any size exceeding the source image dimensions or 256.  (The one
call site passes a duplicate-free sorted list, so de-duplication and
sorting are identities here.) -/
def icoEmbeddedSizes (img : Img) (sizes : List (Nat × Nat)) : List (Nat × Nat) :=
  sizes.filter fun s =>
    s.1 ≤ img.width && s.2 ≤ img.height && s.1 ≤ 256 && s.2 ≤ 256

/-- The rendition sizes actually embedded in a written file: one frame
for a PNG, the filtered size list for an ICO. -/
def FileContent.frames : FileContent → List (Nat × Nat)
  | .png img => [(img.width, img.height)]
  | .ico img sizes => icoEmbeddedSizes img sizes
  | .icns sizes => sizes

/-- An observable side effect of the program. -/
inductive Ev where
  | openF (path : String)
  | writeF (path : String) (c : FileContent)
  | copyF (src dst : String)
  | rmtree (path : String)
  | msg (s : String)

/-- `os.path.join a b` for the paths this program builds. -/
def pjoin (a b : String) : String :=
  a ++ "/" ++ b

/-- Core of Python `str.replace` on character lists: replace every
occurrence of the nonempty pattern `pat`, scanning left to right.  The
fuel argument (instantiated with the subject length, which bounds the
number of steps) keeps the recursion structural. -/
def replaceAux (pat rep : List Char) : Nat → List Char → List Char
  | _, [] => []
  | 0, l => l
  | fuel + 1, c :: rest =>
    if pat.isPrefixOf (c :: rest) then
      rep ++ replaceAux pat rep fuel (rest.drop (pat.length - 1))
    else
      c :: replaceAux pat rep fuel rest

/-- Python `s.replace(pat, rep)` (all occurrences, left to right). -/
def pyReplace (s pat rep : String) : String :=
  if pat.isEmpty then s
  else ⟨replaceAux pat.toList rep.toList s.toList.length s.toList⟩

/-- How `subprocess.run(["iconutil", ...], check=True)` ends: normally,
with a `CalledProcessError` (non-zero exit), or with a
`FileNotFoundError` (the executable is missing). -/
inductive BundlerOutcome where
  | success
  | nonzeroExit
  | missingTool
deriving DecidableEq, Repr

/-- A Python exception relevant to this program. -/
inductive PyErr where
  | decodeError
  | fileNotFound
deriving DecidableEq, Repr

/-- The text interpolated into `print(f"Error: {e}")`. -/
def PyErr.text : PyErr → String
  | .decodeError => "cannot identify image file"
  | .fileNotFound => "No such file or directory: iconutil"

/-- The runtime environment of one invocation. -/
structure Env where
  /-- `os.path.isfile(args.input)` -/
  inputExists : Bool
  /-- does `Image.open(input_file)` succeed? -/
  decodeOk : Bool
  /-- the image decoded from the input file (when `decodeOk`) -/
  inputImage : Img
  /-- `platform.system()` -/
  system : String
  /-- behaviour of the `iconutil` subprocess, if invoked -/
  iconutil : BundlerOutcome

/-- The `icon_sizes` table of `generate_icns`. -/
def iconSizesIcns : List (Nat × String) :=
  [(16, "16x16.png"),
   (32, "16x16@2x.png"),
   (32, "32x32.png"),
   (64, "32x32@2x.png"),
   (128, "128x128.png"),
   (256, "128x128@2x.png"),
   (256, "256x256.png"),
   (512, "256x256@2x.png"),
   (512, "512x512.png"),
   (1024, "512x512@2x.png")]

/-- `create_icns_placeholder(img, icns_path)`: resize to 1024×1024, save
as PNG at the `.icns` path with `.icns` replaced by `.png`, then
`shutil.copy2` that PNG onto the `.icns` path. -/
def create_icns_placeholder (img : Img) (icns_path : String) : List Ev :=
  let img2 := img.resize 1024 1024
  let png_path := pyReplace icns_path ".icns" ".png"
  [Ev.writeF png_path (.png img2),
   Ev.copyF png_path icns_path,
   Ev.msg ("Created placeholder .icns file at " ++ icns_path)]

/-- `generate_icns(icon_path, output_dir)`: stage the 10 renditions,
then on Darwin run `iconutil` (deleting the staging directory on
success, falling back to the placeholder on `CalledProcessError`, and
letting a `FileNotFoundError` escape — only `CalledProcessError` is
caught); on any other system write the placeholder directly.  Returns
the trace and either the returned `icns_path` or the escaping
exception. -/
def generate_icns (env : Env) (icon_path output_dir : String) :
    List Ev × Except PyErr String :=
  let iconset_path := pjoin output_dir "icons/icons.iconset"
  if env.decodeOk = false then
    ([Ev.openF icon_path], .error .decodeError)
  else
    let original :=
      if env.inputImage.mode ≠ PyMode.RGBA then env.inputImage.convertRGBA
      else env.inputImage
    let stage := iconSizesIcns.map fun sf =>
      Ev.writeF (pjoin iconset_path sf.2) (.png (original.resize sf.1 sf.1))
    let icns_path := pjoin output_dir "icons/icon.icns"
    let evs0 := Ev.openF icon_path :: stage
    if env.system = "Darwin" then
      match env.iconutil with
      | .success =>
        (evs0 ++ [Ev.writeF icns_path (.icns (iconSizesIcns.map fun sf => (sf.1, sf.1))),
                  Ev.msg ("Generated macOS .icns file: " ++ icns_path),
                  Ev.rmtree iconset_path],
         .ok icns_path)
      | .nonzeroExit =>
        (evs0 ++ [Ev.msg "Error generating .icns file: CalledProcessError",
                  Ev.msg "Creating placeholder .icns file instead..."]
              ++ create_icns_placeholder original icns_path,
         .ok icns_path)
      | .missingTool =>
        (evs0, .error .fileNotFound)
    else
      (evs0 ++ [Ev.msg "Not running on macOS, creating placeholder .icns file..."]
            ++ create_icns_placeholder original icns_path,
       .ok icns_path)

/-- The fixed ICO size list of `generate_ico`. -/
def icoSaveSizes : List (Nat × Nat) :=
  [(16, 16), (32, 32), (48, 48), (64, 64), (128, 128), (256, 256)]

/-- `generate_ico(img, ico_path)`: ensure RGBA, then save one ICO file
with the fixed size list. -/
def generate_ico (img : Img) (ico_path : String) : List Ev :=
  let img2 := if img.mode ≠ PyMode.RGBA then img.convertRGBA else img
  [Ev.writeF ico_path (.ico img2 icoSaveSizes),
   Ev.msg ("Generated Windows .ico file: " ++ ico_path)]

/-- The `densities` table of `generate_android_icons`. -/
def androidDensities : List (String × Nat) :=
  [("mipmap-mdpi", 48),
   ("mipmap-hdpi", 72),
   ("mipmap-xhdpi", 96),
   ("mipmap-xxhdpi", 144),
   ("mipmap-xxxhdpi", 192)]

/-- `generate_android_icons(original, output_dir, quality)`: per density,
resize and save `ic_launcher.png`, save the same resized image again as
`ic_launcher_foreground.png`, and save the round-masked version as
`ic_launcher_round.png`.  (`quality` is forwarded to PNG saves, where
Pillow ignores it; it does not influence the trace.) -/
def generate_android_icons (original : Img) (output_dir : String) : List Ev :=
  (androidDensities.map fun ds =>
    let density_dir := pjoin (pjoin output_dir "android") ds.1
    let img_resized := original.resize ds.2 ds.2
    let launcher_path := pjoin density_dir "ic_launcher.png"
    let foreground_path := pjoin density_dir "ic_launcher_foreground.png"
    let round_path := pjoin density_dir "ic_launcher_round.png"
    [Ev.writeF launcher_path (.png img_resized),
     Ev.msg ("Generated Android launcher icon: " ++ launcher_path),
     Ev.writeF foreground_path (.png img_resized),
     Ev.msg ("Generated Android foreground icon: " ++ foreground_path),
     Ev.writeF round_path (.png (make_round_image img_resized)),
     Ev.msg ("Generated Android round icon: " ++ round_path)]).flatten

/-- One step of building a Python `dict` literal: a repeated key keeps
its first insertion position but takes the latest value. -/
def dictInsert (d : List (String × α)) (kv : String × α) : List (String × α) :=
  if d.any fun e => e.1 = kv.1 then
    d.map fun e => if e.1 = kv.1 then (e.1, kv.2) else e
  else
    d ++ [kv]

/-- The runtime `dict` produced by a Python dict literal. -/
def pyDict (l : List (String × α)) : List (String × α) :=
  l.foldl dictInsert []

/-- The `icons` dict literal of `generate_icons`, entry for entry as
written in the source (note `icons/128x128.png` appears twice, once in
the macOS block and once in the Linux block, both mapping to 128×128). -/
def iconsLiteral : List (String × (Nat × Nat)) :=
  [("icons/32x32.png", (32, 32)),
   ("icons/128x128.png", (128, 128)),
   ("icons/128x128@2x.png", (256, 256)),
   ("icons/32x32@2x.png", (64, 64)),
   ("icons/icon.png", (1024, 1024)),
   ("icons/ios/16.png", (16, 16)),
   ("icons/ios/20.png", (20, 20)),
   ("icons/ios/29.png", (29, 29)),
   ("icons/ios/32.png", (32, 32)),
   ("icons/ios/40.png", (40, 40)),
   ("icons/ios/50.png", (50, 50)),
   ("icons/ios/57.png", (57, 57)),
   ("icons/ios/58.png", (58, 58)),
   ("icons/ios/60.png", (60, 60)),
   ("icons/ios/64.png", (64, 64)),
   ("icons/ios/72.png", (72, 72)),
   ("icons/ios/76.png", (76, 76)),
   ("icons/ios/80.png", (80, 80)),
   ("icons/ios/87.png", (87, 87)),
   ("icons/ios/100.png", (100, 100)),
   ("icons/ios/114.png", (114, 114)),
   ("icons/ios/120.png", (120, 120)),
   ("icons/ios/128.png", (128, 128)),
   ("icons/ios/144.png", (144, 144)),
   ("icons/ios/152.png", (152, 152)),
   ("icons/ios/167.png", (167, 167)),
   ("icons/ios/180.png", (180, 180)),
   ("icons/ios/192.png", (192, 192)),
   ("icons/ios/256.png", (256, 256)),
   ("icons/ios/512.png", (512, 512)),
   ("icons/ios/1024.png", (1024, 1024)),
   ("icons/128x128.png", (128, 128)),
   ("icons/256x256.png", (256, 256)),
   ("icons/512x512.png", (512, 512)),
   ("icons/1024x1024.png", (1024, 1024))]

/-- The `icons` dict as it exists at run time (duplicate keys collapsed
by Python dict-literal semantics). -/
def iconsTable : List (String × (Nat × Nat)) :=
  pyDict iconsLiteral

/-- `generate_icons(input_file, output_dir, quality)`: the whole `try`
body — load and normalise, write every planner entry, `generate_ico`,
`generate_icns`, `generate_android_icons` — with `except Exception`
printing `Error: {e}` and calling `sys.exit(1)`.  Returns the trace and
`some code` when `sys.exit(code)` was called, `none` on normal return. -/
def generate_icons (env : Env) (input_file output_dir : String) :
    List Ev × Option Nat :=
  if env.decodeOk = false then
    ([Ev.openF input_file, Ev.msg ("Error: " ++ PyErr.decodeError.text)], some 1)
  else
    let original :=
      if env.inputImage.mode ≠ PyMode.RGBA then env.inputImage.convertRGBA
      else env.inputImage
    let convertMsgs :=
      if env.inputImage.mode ≠ PyMode.RGBA then
        [Ev.msg "Converting image to RGBA mode..."]
      else []
    let plannerEvs := (iconsTable.map fun e =>
      let img0 := original.resize e.2.1 e.2.2
      let img := if img0.mode ≠ PyMode.RGBA then img0.convertRGBA else img0
      let full_output_path := pjoin output_dir e.1
      [Ev.writeF full_output_path (.png img),
       Ev.msg ("Generated: " ++ full_output_path)]).flatten
    let icoEvs := generate_ico original (pjoin output_dir "icons/icon.ico")
    let pre := Ev.openF input_file :: convertMsgs ++ plannerEvs ++ icoEvs
    match generate_icns env input_file output_dir with
    | (icnsEvs, .error e) =>
      (pre ++ icnsEvs ++ [Ev.msg ("Error: " ++ e.text)], some 1)
    | (icnsEvs, .ok _) =>
      let androidEvs := generate_android_icons original output_dir
      (pre ++ icnsEvs ++ androidEvs
           ++ [Ev.msg ("Icon generation completed successfully to " ++ output_dir)],
       none)

/-- The `main()` function after argument parsing (named `mainFn` because a top-level `main` is reserved): check `os.path.isfile(args.input)`
(printing and exiting 1 when it fails, before any other work), then run
`generate_icons`.  Returns the trace and the process exit code (0 when
the script falls off the end of `main`). -/
def mainFn (env : Env) (input output : String) : List Ev × Nat :=
  if env.inputExists = false then
    ([Ev.msg ("Error: Input file " ++ input ++ " does not exist.")], 1)
  else
    let r := generate_icons env input output
    (r.1, r.2.getD 0)

/-- A run with the default output directory `./tauri-icons` and input
path `icon.png`. -/
def runTrace (env : Env) : List Ev :=
  (mainFn env "icon.png" "./tauri-icons").1

/-- The exit code of the same run. -/
def runExit (env : Env) : Nat :=
  (mainFn env "icon.png" "./tauri-icons").2

/-- The paths a trace writes to, in order: explicit file saves plus the
destinations of `shutil.copy2`. -/
def writtenPaths (evs : List Ev) : List String :=
  (evs.map fun e =>
    match e with
    | .writeF p _ => [p]
    | .copyF _ d => [d]
    | _ => []).flatten

/-- Replay one event against a flat path → contents map.  Writes and
copies prepend; since `List.lookup` returns the first (most recent)
entry, later writes shadow earlier ones. -/
def fsStep (fs : List (String × FileContent)) : Ev → List (String × FileContent)
  | .writeF p c => (p, c) :: fs
  | .copyF s d =>
    match fs.lookup s with
    | some c => (d, c) :: fs
    | none => fs
  | .rmtree p => fs.filter fun e => ¬ (p.toList.isPrefixOf e.1.toList)
  | _ => fs

/-- The filesystem contents after replaying a trace. -/
def runFS (evs : List Ev) : List (String × FileContent) :=
  evs.foldl fsStep []

/-- The paths handed to `shutil.rmtree` in a trace, in order. -/
def rmtreeTargets (evs : List Ev) : List String :=
  (evs.map fun e =>
    match e with
    | .rmtree p => [p]
    | _ => []).flatten

/-- The paths handed to `Image.open` in a trace, in order. -/
def openedPaths (evs : List Ev) : List String :=
  (evs.map fun e =>
    match e with
    | .openF p => [p]
    | _ => []).flatten

/-- The explicit file saves of a trace (path and contents), in order. -/
def writeEvents (evs : List Ev) : List (String × FileContent) :=
  (evs.map fun e =>
    match e with
    | .writeF p c => [(p, c)]
    | _ => []).flatten

/-- The lines printed by a trace, in order. -/
def printedMsgs (evs : List Ev) : List String :=
  (evs.map fun e =>
    match e with
    | .msg s => [s]
    | _ => []).flatten

/-- String prefix test, via the character lists (keeps kernel reduction
structural). -/
def strPrefix (p s : String) : Bool :=
  p.toList.isPrefixOf s.toList

/-- The trace printed a line starting with `Error`. -/
def printsError (evs : List Ev) : Prop :=
  (printedMsgs evs).any (fun s => strPrefix "Error" s) = true

/-- The mode of the image stored in a written file (`RGBA` for an icns
bundle, whose renditions were saved from RGBA images). -/
def FileContent.cmode : FileContent → PyMode
  | .png img => img.mode
  | .ico img _ => img.mode
  | .icns _ => .RGBA

/-- A constant opaque pixel field, for concrete test images. -/
def constPx : Nat → Nat → RGBAv := fun _ _ => ⟨9, 9, 9, 255⟩

/-- A 1×1 fully opaque RGBA image. -/
def img1 : Img := ⟨1, 1, .RGBA, constPx⟩

/-- A 4×4 fully opaque RGBA image. -/
def img4 : Img := ⟨4, 4, .RGBA, constPx⟩

/-- A 100×100 fully opaque RGBA image (the spec's own test input). -/
def img100 : Img := ⟨100, 100, .RGBA, constPx⟩

/-- A 256×256 fully opaque RGBA image. -/
def img256 : Img := ⟨256, 256, .RGBA, constPx⟩

/-- The planner output paths, in dict order, joined to the default
output directory. -/
def plannerPaths : List String :=
  iconsTable.map fun e => pjoin "./tauri-icons" e.1

/-- The 10 staged iconset rendition paths. -/
def stagedPaths : List String :=
  iconSizesIcns.map fun sf => pjoin "./tauri-icons/icons/icons.iconset" sf.2

/-- The 15 Android output paths (5 densities × 3 files). -/
def androidPaths : List String :=
  (androidDensities.map fun ds =>
    [pjoin (pjoin (pjoin "./tauri-icons" "android") ds.1) "ic_launcher.png",
     pjoin (pjoin (pjoin "./tauri-icons" "android") ds.1) "ic_launcher_foreground.png",
     pjoin (pjoin (pjoin "./tauri-icons" "android") ds.1) "ic_launcher_round.png"]).flatten

/-- The complete ordered list of paths one run writes, as a function of
the platform branch and the bundler outcome. -/
def runWrittenPaths (darwin : Bool) (bun : BundlerOutcome) : List String :=
  plannerPaths ++ ["./tauri-icons/icons/icon.ico"] ++ stagedPaths ++
  (if darwin then
    match bun with
    | .success => ["./tauri-icons/icons/icon.icns"] ++ androidPaths
    | .nonzeroExit =>
      ["./tauri-icons/icons/icon.png", "./tauri-icons/icons/icon.icns"] ++ androidPaths
    | .missingTool => []
  else
    ["./tauri-icons/icons/icon.png", "./tauri-icons/icons/icon.icns"] ++ androidPaths)

/-- A run on Linux with a 100×100 RGBA input. -/
def envLinux : Env := ⟨true, true, img100, "Linux", .success⟩

/-- A run on macOS where `iconutil` succeeds. -/
def envDarwinOk : Env := ⟨true, true, img100, "Darwin", .success⟩

/-- A run on macOS where `iconutil` exits non-zero. -/
def envDarwinNonzero : Env := ⟨true, true, img100, "Darwin", .nonzeroExit⟩

/-- A run on macOS where the `iconutil` executable is missing. -/
def envDarwinMissing : Env := ⟨true, true, img100, "Darwin", .missingTool⟩

/-- A run whose input path is not a file. -/
def envMissingInput : Env := ⟨false, true, img100, "Linux", .success⟩

/-- A run whose input file exists but fails to decode. -/
def envDecodeFail : Env := ⟨true, false, img100, "Linux", .success⟩

/-- The property claim C3 asserts of `make_round_image` at one (square)
input: identical dimensions, zero alpha outside the inscribed circle,
colour and alpha retained inside, all four corner pixels fully
transparent, and the centre pixel's alpha equal to the source's. -/
def roundClaim (img : Img) : Prop :=
  (make_round_image img).width = img.width ∧
  (make_round_image img).height = img.height ∧
  (∀ x < img.width, ∀ y < img.height,
    if inEllipseMask img.width img.height x y then
      (make_round_image img).px x y = img.px x y
    else ((make_round_image img).px x y).a = 0) ∧
  ((make_round_image img).px 0 0).a = 0 ∧
  ((make_round_image img).px (img.width - 1) 0).a = 0 ∧
  ((make_round_image img).px 0 (img.height - 1)).a = 0 ∧
  ((make_round_image img).px (img.width - 1) (img.height - 1)).a = 0 ∧
  ((make_round_image img).px (img.width / 2) (img.height / 2)).a
    = (img.px (img.width / 2) (img.height / 2)).a

/-- On a square of side at least 4, the corner pixels lie outside the
drawn ellipse. -/
lemma corner_outside_mask (n x y : Nat) (h : 4 ≤ n)
    (hx : x = 0 ∨ x = n - 1) (hy : y = 0 ∨ y = n - 1) :
    inEllipseMask n n x y = false := by
  have hn : (4 : Int) ≤ (n : Int) := by exact_mod_cast h
  have key : ∀ a : Nat, a = 0 ∨ a = n - 1 →
      (2 * (a : Int) + 1 - n) ^ 2 = ((n : Int) - 1) ^ 2 := by
    rintro a (rfl | rfl)
    · ring_nf
    · have : ((n - 1 : Nat) : Int) = (n : Int) - 1 := by
        have : 1 ≤ n := by omega
        push_cast [this]
        ring
      rw [this]
      ring
  simp only [inEllipseMask, decide_eq_false_iff_not, not_le, mul_pow]
  rw [key x hx, key y hy]
  have h2 : (2 : Int) ≤ (n : Int) - 2 := by omega
  nlinarith [mul_le_mul h2 h2 (by omega : (0 : Int) ≤ 2) (by omega : (0 : Int) ≤ (n : Int) - 2),
    sq_nonneg ((n : Int)), mul_pos (by omega : (0 : Int) < (n : Int)) (by omega : (0 : Int) < (n : Int))]

/-- On a square of side at least 2, the centre pixel `(n/2, n/2)` lies
inside the drawn ellipse. -/
lemma center_inside_mask (n : Nat) (h : 2 ≤ n) :
    inEllipseMask n n (n / 2) (n / 2) = true := by
  have hn : (2 : Int) ≤ (n : Int) := by exact_mod_cast h
  rcases Nat.even_or_odd n with ⟨k, hk⟩ | ⟨k, hk⟩
  · subst hk
    have hdiv : (k + k) / 2 = k := by omega
    simp only [inEllipseMask, hdiv, decide_eq_true_eq]
    have hcast : ((k + k : Nat) : Int) = 2 * (k : Int) := by push_cast; ring
    rw [hcast]
    have hk1 : (1 : Int) ≤ (k : Int) := by omega
    have hk2 : (1 : Int) ≤ (k : Int) * (k : Int) := by nlinarith
    nlinarith [hk2, sq_nonneg ((k : Int) * (k : Int) - 1), sq_nonneg ((k : Int))]
  · subst hk
    have hdiv : (2 * k + 1) / 2 = k := by omega
    simp only [inEllipseMask, hdiv, decide_eq_true_eq]
    have hcast : ((2 * k + 1 : Nat) : Int) = 2 * (k : Int) + 1 := by push_cast; ring
    rw [hcast]
    nlinarith [sq_nonneg (2 * (k : Int) + 1)]

/-- Filtering with a predicate that holds at `p` does not change the
number of occurrences of `p`. -/
lemma count_filter_true (L : List String) (q : String → Bool) (p : String)
    (hq : q p = true) :
    (L.filter q).count p = L.count p := by
  induction L with
  | nil => rfl
  | cons a tl ih =>
    by_cases hqa : q a = true
    · rw [List.filter_cons_of_pos hqa, List.count_cons, List.count_cons, ih]
    · rw [List.filter_cons_of_neg hqa, ih, List.count_cons]
      have hne : ¬ a = p := fun h => hqa (h ▸ hq)
      simp [hne]

/-- If a list is duplicate-free away from `c`, every element other than
`c` occurs at most once. -/
lemma count_le_one_of_filter_nodup (L : List String) (c : String)
    (h : (L.filter fun x => x ≠ c).Nodup) (p : String) (hp : p ≠ c) :
    L.count p ≤ 1 := by
  have h1 := List.nodup_iff_count_le_one.mp h p
  rwa [count_filter_true L _ p (by simp [hp])] at h1

/-- On a non-Darwin host, a run that decodes its input writes exactly
the paths `runWrittenPaths false _`, in order. -/
lemma wp_nonDarwin (img : Img) (sys : String) (bun : BundlerOutcome)
    (hs : sys ≠ "Darwin") :
    writtenPaths (runTrace ⟨true, true, img, sys, bun⟩) = runWrittenPaths false bun := by
  simp [runTrace, mainFn, generate_icons, generate_icns, hs, writtenPaths, runWrittenPaths,
    plannerPaths, stagedPaths, androidPaths, generate_ico, generate_android_icons,
    create_icns_placeholder, pyReplace, replaceAux, iconsTable, pyDict, dictInsert,
    iconsLiteral, iconSizesIcns, androidDensities, pjoin,
    show (".icns".isEmpty = false) from rfl]

/-- On Darwin, a run that decodes its input writes exactly the paths
`runWrittenPaths true bun`, in order. -/
lemma wp_darwin (img : Img) (bun : BundlerOutcome) :
    writtenPaths (runTrace ⟨true, true, img, "Darwin", bun⟩) = runWrittenPaths true bun := by
  cases bun <;>
  simp [runTrace, mainFn, generate_icons, generate_icns, writtenPaths, runWrittenPaths,
    plannerPaths, stagedPaths, androidPaths, generate_ico, generate_android_icons,
    create_icns_placeholder, pyReplace, replaceAux, iconsTable, pyDict, dictInsert,
    iconsLiteral, iconSizesIcns, androidDensities, pjoin,
    show (".icns".isEmpty = false) from rfl]

/-- C1 (counterexample): on a Linux run the path `icons/icon.png` is
written twice — once by the planner loop and once by the ICNS
placeholder — while the §9 duplicate-key path `icons/128x128.png` is
written only once, so `icons/icon.png` is an "other output path written
more than once per run", contradicting the claim. -/
theorem C1_counterexample :
    (writtenPaths (runTrace envLinux)).count "./tauri-icons/icons/icon.png" = 2 ∧
    "./tauri-icons/icons/icon.png" ≠ "./tauri-icons/icons/128x128.png" ∧
    (writtenPaths (runTrace envLinux)).count "./tauri-icons/icons/128x128.png" = 1 := by
  refine ⟨by decide, by decide, by decide⟩

/-- C1 (amended): in every run that decodes its input, each output path
other than `icons/icon.png` is written at most once; `icons/icon.png`
itself is written twice exactly when the placeholder degrade path runs
(non-Darwin host, or Darwin with a bundler non-zero exit) and once
otherwise; the duplicate planner key `icons/128x128.png` collapses at
dict construction and is written exactly once. -/
theorem C1_theorem (env : Env) (hex : env.inputExists = true) (hd : env.decodeOk = true) :
    (∀ p, p ≠ "./tauri-icons/icons/icon.png" →
      (writtenPaths (runTrace env)).count p ≤ 1) ∧
    (writtenPaths (runTrace env)).count "./tauri-icons/icons/icon.png" =
      (if env.system = "Darwin" ∧ env.iconutil ≠ BundlerOutcome.nonzeroExit then 1 else 2) ∧
    (writtenPaths (runTrace env)).count "./tauri-icons/icons/128x128.png" = 1 := by
  obtain ⟨ie, dok, img, sys, bun⟩ := env
  simp only at hex hd ⊢
  subst hex hd
  by_cases hs : sys = "Darwin"
  · subst hs
    rw [wp_darwin img bun]
    have hnd : ((runWrittenPaths true bun).filter
        fun x => x ≠ "./tauri-icons/icons/icon.png").Nodup := by
      cases bun <;> decide
    have hc1 : (runWrittenPaths true bun).count "./tauri-icons/icons/icon.png" =
        (if ("Darwin" : String) = "Darwin" ∧ bun ≠ BundlerOutcome.nonzeroExit
         then 1 else 2) := by
      cases bun <;> decide
    have hc2 : (runWrittenPaths true bun).count "./tauri-icons/icons/128x128.png" = 1 := by
      cases bun <;> decide
    exact ⟨count_le_one_of_filter_nodup _ _ hnd, hc1, hc2⟩
  · rw [wp_nonDarwin img sys bun hs]
    have hcond : ¬(sys = "Darwin" ∧ bun ≠ BundlerOutcome.nonzeroExit) := by
      simp [hs]
    rw [if_neg hcond]
    have hnd : ((runWrittenPaths false bun).filter
        fun x => x ≠ "./tauri-icons/icons/icon.png").Nodup := by
      cases bun <;> decide
    have hc1 : (runWrittenPaths false bun).count "./tauri-icons/icons/icon.png" = 2 := by
      cases bun <;> decide
    have hc2 : (runWrittenPaths false bun).count "./tauri-icons/icons/128x128.png" = 1 := by
      cases bun <;> decide
    exact ⟨count_le_one_of_filter_nodup _ _ hnd, hc1, hc2⟩

/-- Witness for C1 at the concrete Linux run. -/
theorem C1_witness :
    envLinux.inputExists = true ∧
    (writtenPaths (runTrace envLinux)).count "./tauri-icons/icons/32x32.png" ≤ 1 :=
  ⟨rfl, (C1_theorem envLinux rfl rfl).1 "./tauri-icons/icons/32x32.png" (by decide)⟩

/-- C2 (counterexample): on Darwin with the bundler executable missing,
the `FileNotFoundError` is not caught by the `except
subprocess.CalledProcessError` handler: the run exits 1, nothing is ever
written to the `.icns` path, and the rest of the run is aborted. -/
theorem C2_counterexample :
    runExit envDarwinMissing = 1 ∧
    (writtenPaths (runTrace envDarwinMissing)).count "./tauri-icons/icons/icon.icns" = 0 ∧
    rmtreeTargets (runTrace envDarwinMissing) = [] := by
  refine ⟨by decide, by decide, by decide⟩

/-- C2 (amended): a bundler non-zero exit is caught locally in
`generate_icns` (it returns normally, the placeholder is written to the
`.icns` path, the run exits 0), and on a non-Darwin host the bundler is
never run and the placeholder is written directly; but a missing bundler
executable on Darwin escapes `generate_icns` as `FileNotFoundError` and
aborts the run with exit code 1, with nothing written to the `.icns`
path. -/
theorem C2_theorem (env : Env) (hex : env.inputExists = true) (hd : env.decodeOk = true) :
    (env.iconutil = BundlerOutcome.nonzeroExit →
      (generate_icns env "icon.png" "./tauri-icons").2
          = Except.ok "./tauri-icons/icons/icon.icns" ∧
      (writtenPaths (runTrace env)).count "./tauri-icons/icons/icon.icns" = 1 ∧
      runExit env = 0) ∧
    (env.system ≠ "Darwin" →
      (generate_icns env "icon.png" "./tauri-icons").2
          = Except.ok "./tauri-icons/icons/icon.icns" ∧
      (writtenPaths (runTrace env)).count "./tauri-icons/icons/icon.icns" = 1 ∧
      runExit env = 0) ∧
    (env.system = "Darwin" → env.iconutil = BundlerOutcome.missingTool →
      (generate_icns env "icon.png" "./tauri-icons").2 = Except.error PyErr.fileNotFound ∧
      (writtenPaths (runTrace env)).count "./tauri-icons/icons/icon.icns" = 0 ∧
      runExit env = 1) := by
  obtain ⟨ie, dok, img, sys, bun⟩ := env
  simp only at hex hd ⊢
  subst hex hd
  refine ⟨?_, ?_, ?_⟩
  · intro hb
    subst hb
    by_cases hs : sys = "Darwin"
    · subst hs
      exact ⟨rfl, by rw [wp_darwin img _]; decide, rfl⟩
    · refine ⟨by simp [generate_icns, hs, pjoin], ?_, by simp [runExit, mainFn,
        generate_icons, generate_icns, hs]⟩
      rw [wp_nonDarwin img sys _ hs]
      decide
  · intro hs
    refine ⟨by simp [generate_icns, hs, pjoin], ?_, by simp [runExit, mainFn,
      generate_icons, generate_icns, hs]⟩
    rw [wp_nonDarwin img sys bun hs]
    cases bun <;> decide
  · intro hs hb
    subst hs hb
    exact ⟨rfl, by rw [wp_darwin img _]; decide, rfl⟩

/-- Witness for C2 at a concrete Darwin run with a bundler non-zero
exit. -/
theorem C2_witness :
    (generate_icns envDarwinNonzero "icon.png" "./tauri-icons").2
        = Except.ok "./tauri-icons/icons/icon.icns" ∧
    runExit envDarwinNonzero = 0 :=
  ⟨((C2_theorem envDarwinNonzero rfl rfl).1 rfl).1,
   ((C2_theorem envDarwinNonzero rfl rfl).1 rfl).2.2⟩

/-- C8: the exit code is 0 on full success; it is 1 when the input file
does not exist (before any other observable work: the trace is just the
error line) and 1 when an exception (decode failure, or the uncaught
`FileNotFoundError` from a missing bundler on Darwin) reaches the
top-level handler of the generation routine; in every failure case an
error line is printed. -/
theorem C8_theorem (env : Env) :
    (env.inputExists = false →
      runExit env = 1 ∧
      runTrace env = [Ev.msg "Error: Input file icon.png does not exist."] ∧
      printsError (runTrace env)) ∧
    (env.inputExists = true → env.decodeOk = false →
      runExit env = 1 ∧ printsError (runTrace env)) ∧
    (env.inputExists = true → env.decodeOk = true → env.system = "Darwin" →
      env.iconutil = BundlerOutcome.missingTool →
      runExit env = 1 ∧ printsError (runTrace env)) ∧
    (env.inputExists = true → env.decodeOk = true →
      ¬(env.system = "Darwin" ∧ env.iconutil = BundlerOutcome.missingTool) →
      runExit env = 0) := by
  obtain ⟨ie, dok, ⟨w, h, m, px⟩, sys, bun⟩ := env
  refine ⟨?_, ?_, ?_, ?_⟩
  · intro h1
    simp only at h1
    subst h1
    refine ⟨rfl, rfl, ?_⟩
    unfold printsError
    rw [show runTrace ⟨false, dok, ⟨w, h, m, px⟩, sys, bun⟩
        = [Ev.msg "Error: Input file icon.png does not exist."] from rfl]
    decide
  · intro h1 h2
    simp only at h1 h2
    subst h1 h2
    refine ⟨rfl, ?_⟩
    unfold printsError
    rw [show runTrace ⟨true, false, ⟨w, h, m, px⟩, sys, bun⟩
        = [Ev.openF "icon.png", Ev.msg ("Error: " ++ PyErr.decodeError.text)] from rfl]
    decide
  · intro h1 h2 h3 h4
    simp only at h1 h2 h3 h4
    subst h1 h2 h3 h4
    refine ⟨rfl, ?_⟩
    unfold printsError
    cases m <;>
      simp [printedMsgs, runTrace, mainFn, generate_icons, generate_icns,
        generate_ico, iconsTable, pyDict, dictInsert, iconsLiteral, iconSizesIcns, pjoin,
        PyErr.text] <;>
      decide
  · intro h1 h2 h3
    simp only at h1 h2 h3
    subst h1 h2
    by_cases hs : sys = "Darwin"
    · subst hs
      have hb : bun ≠ BundlerOutcome.missingTool := by
        intro hbb
        exact h3 ⟨rfl, hbb⟩
      cases bun
      · rfl
      · rfl
      · exact absurd rfl hb
    · simp [runExit, mainFn, generate_icons, generate_icns, hs]

/-- Witness for C8 at a concrete missing-input run and a concrete
successful Linux run. -/
theorem C8_witness :
    runExit envMissingInput = 1 ∧ runExit envLinux = 0 :=
  ⟨((C8_theorem envMissingInput).1 rfl).1,
   (C8_theorem envLinux).2.2.2 rfl rfl (by decide)⟩

/-- C3 (counterexample): on a 1×1 fully opaque square input the claim
fails — the single pixel is simultaneously all four corners and the
centre, and under the mask it keeps alpha 255, so the
corners-are-transparent conjunct is violated (no masker could satisfy
both conjuncts at this size). -/
theorem C3_counterexample : ¬ roundClaim img1 := by
  unfold roundClaim
  decide

/-- C3 (amended): for every square input of side at least 4,
`make_round_image` returns an image of identical dimensions in which
pixels inside the inscribed circle retain the source colour and alpha,
pixels outside have zero alpha, all four corner pixels are fully
transparent, and the centre pixel keeps the source alpha. -/
theorem C3_theorem (img : Img) (n : Nat)
    (hw : img.width = n) (hh : img.height = n) (h4 : 4 ≤ n) :
    roundClaim img := by
  refine ⟨rfl, rfl, ?_, ?_, ?_, ?_, ?_, ?_⟩
  · intro x _ y _
    by_cases h : inEllipseMask img.width img.height x y
    · simp [make_round_image, h]
    · simp [make_round_image, h]
  · have h0 := corner_outside_mask n 0 0 h4 (Or.inl rfl) (Or.inl rfl)
    simp [make_round_image, hw, hh, h0]
  · have h0 := corner_outside_mask n (n - 1) 0 h4 (Or.inr rfl) (Or.inl rfl)
    simp [make_round_image, hw, hh, h0]
  · have h0 := corner_outside_mask n 0 (n - 1) h4 (Or.inl rfl) (Or.inr rfl)
    simp [make_round_image, hw, hh, h0]
  · have h0 := corner_outside_mask n (n - 1) (n - 1) h4 (Or.inr rfl) (Or.inr rfl)
    simp [make_round_image, hw, hh, h0]
  · have h0 := center_inside_mask n (by omega)
    simp [make_round_image, hw, hh, h0]

/-- Witness for C3 at a concrete 4×4 opaque square. -/
theorem C3_witness : 4 ≤ 4 ∧ roundClaim img4 :=
  ⟨by decide, C3_theorem img4 4 rfl rfl (by decide)⟩

/-- C9: for every input image (any mode, any dimensions), the masker
returns a four-channel RGBA image, and every pixel outside the inscribed
ellipse is exactly `(0, 0, 0, 0)` — colour channels zeroed along with
alpha. -/
theorem C9_theorem (img : Img) :
    (make_round_image img).mode = PyMode.RGBA ∧
    ∀ x y, inEllipseMask img.width img.height x y = false →
      (make_round_image img).px x y = ⟨0, 0, 0, 0⟩ := by
  refine ⟨rfl, fun x y h => ?_⟩
  simp [make_round_image, h]

/-- Witness for C9 at the corner pixel of a concrete 4×4 opaque
square. -/
theorem C9_witness :
    inEllipseMask img4.width img4.height 0 0 = false ∧
    (make_round_image img4).mode = PyMode.RGBA ∧
    (make_round_image img4).px 0 0 = ⟨0, 0, 0, 0⟩ :=
  ⟨by decide, (C9_theorem img4).1, (C9_theorem img4).2 0 0 (by decide)⟩

/-- C6 (counterexample): on the spec's own 100×100 RGBA test input, the
ICO file embeds only the four sizes 16, 32, 48, 64 — Pillow drops
requested sizes exceeding the source dimensions — not the six claimed
sizes. -/
theorem C6_counterexample :
    ((runFS (generate_ico img100 "icons/icon.ico")).lookup "icons/icon.ico").map
        FileContent.frames = some [(16, 16), (32, 32), (48, 48), (64, 64)] ∧
    ((runFS (generate_ico img100 "icons/icon.ico")).lookup "icons/icon.ico").map
        FileContent.frames ≠ some icoSaveSizes := by
  constructor
  · decide
  · decide

/-- C6 (amended): whenever the source image is at least 256×256, the ICO
packager writes one container embedding a rendition at each of exactly
the six sizes 16, 32, 48, 64, 128, 256; sizes exceeding the source
dimensions are dropped by the encoder. -/
theorem C6_theorem (img : Img) (ico_path : String)
    (hw : 256 ≤ img.width) (hh : 256 ≤ img.height) :
    ((runFS (generate_ico img ico_path)).lookup ico_path).map FileContent.frames
      = some icoSaveSizes := by
  have hcw : (if img.mode ≠ PyMode.RGBA then img.convertRGBA else img).width = img.width := by
    split <;> rfl
  have hch : (if img.mode ≠ PyMode.RGBA then img.convertRGBA else img).height = img.height := by
    split <;> rfl
  simp only [generate_ico, runFS, List.foldl, fsStep, List.lookup, beq_self_eq_true, if_true]
  simp only [Option.map_some', FileContent.frames, icoEmbeddedSizes]
  rw [List.filter_eq_self.mpr]
  intro s hs
  rw [hcw, hch]
  fin_cases hs <;> simp <;> omega

/-- Witness for C6 at a concrete 256×256 RGBA image. -/
theorem C6_witness :
    256 ≤ img256.width ∧
    ((runFS (generate_ico img256 "icons/icon.ico")).lookup "icons/icon.ico").map
        FileContent.frames = some icoSaveSizes :=
  ⟨by decide, C6_theorem img256 "icons/icon.ico" (by decide) (by decide)⟩

/-- Canonicalisation: `generate_icns` behaves identically on every
non-Darwin system string. -/
lemma icns_nonDarwin (ie : Bool) (img : Img) (sys : String) (bun : BundlerOutcome)
    (hs : sys ≠ "Darwin") (p o : String) :
    generate_icns ⟨ie, true, img, sys, bun⟩ p o
      = generate_icns ⟨ie, true, img, "Linux", bun⟩ p o := by
  simp [generate_icns, hs]

/-- Canonicalisation: a full run behaves identically on every non-Darwin
system string. -/
lemma run_nonDarwin (img : Img) (sys : String) (bun : BundlerOutcome)
    (hs : sys ≠ "Darwin") :
    mainFn ⟨true, true, img, sys, bun⟩ "icon.png" "./tauri-icons"
      = mainFn ⟨true, true, img, "Linux", bun⟩ "icon.png" "./tauri-icons" := by
  simp [mainFn, generate_icons, generate_icns, hs]

/-- C4: in every run that decodes its input, the ICNS packager stages
exactly the 10 renditions (sizes 16 through 1024 with the `@2x`
duplicates) into the iconset staging directory; the staging directory is
handed to `shutil.rmtree` exactly when the platform is Darwin and the
bundler succeeds, and is left in place in every other outcome (fallback
included). -/
theorem C4_theorem (env : Env) (hd : env.decodeOk = true) :
    ((writeEvents (generate_icns env "icon.png" "./tauri-icons").1).filter
        fun pc => strPrefix "./tauri-icons/icons/icons.iconset/" pc.1).map
        (fun pc => (pc.1, pc.2.frames))
      = [("./tauri-icons/icons/icons.iconset/16x16.png", [(16, 16)]),
         ("./tauri-icons/icons/icons.iconset/16x16@2x.png", [(32, 32)]),
         ("./tauri-icons/icons/icons.iconset/32x32.png", [(32, 32)]),
         ("./tauri-icons/icons/icons.iconset/32x32@2x.png", [(64, 64)]),
         ("./tauri-icons/icons/icons.iconset/128x128.png", [(128, 128)]),
         ("./tauri-icons/icons/icons.iconset/128x128@2x.png", [(256, 256)]),
         ("./tauri-icons/icons/icons.iconset/256x256.png", [(256, 256)]),
         ("./tauri-icons/icons/icons.iconset/256x256@2x.png", [(512, 512)]),
         ("./tauri-icons/icons/icons.iconset/512x512.png", [(512, 512)]),
         ("./tauri-icons/icons/icons.iconset/512x512@2x.png", [(1024, 1024)])] ∧
    (env.system = "Darwin" → env.iconutil = BundlerOutcome.success →
      rmtreeTargets (generate_icns env "icon.png" "./tauri-icons").1
        = ["./tauri-icons/icons/icons.iconset"]) ∧
    (¬(env.system = "Darwin" ∧ env.iconutil = BundlerOutcome.success) →
      rmtreeTargets (generate_icns env "icon.png" "./tauri-icons").1 = []) := by
  obtain ⟨ie, dok, img, sys, bun⟩ := env
  simp only at hd ⊢
  subst hd
  by_cases hs : sys = "Darwin"
  · subst hs
    refine ⟨?_, ?_, ?_⟩
    · cases bun <;> rfl
    · intro _ hb
      subst hb
      rfl
    · intro hnb
      cases bun
      · exact absurd ⟨rfl, rfl⟩ hnb
      · rfl
      · rfl
  · rw [icns_nonDarwin ie img sys bun hs]
    refine ⟨?_, ?_, ?_⟩
    · cases bun <;> rfl
    · intro hds
      exact absurd hds hs
    · intro _
      cases bun <;> rfl

/-- Witness for C4 at the concrete Darwin-success and Linux runs. -/
theorem C4_witness :
    rmtreeTargets (generate_icns envDarwinOk "icon.png" "./tauri-icons").1
      = ["./tauri-icons/icons/icons.iconset"] ∧
    rmtreeTargets (generate_icns envLinux "icon.png" "./tauri-icons").1 = [] :=
  ⟨(C4_theorem envDarwinOk rfl).2.1 rfl rfl,
   (C4_theorem envLinux rfl).2.2 (by decide)⟩

set_option maxHeartbeats 4000000 in
/-- C5: on every non-Darwin run that decodes its input, the final
filesystem holds at `icons/icon.icns` a single-frame PNG of exactly
1024×1024 (the placeholder), byte-identical to the PNG written at
`icons/icon.png` from which it was copied. -/
theorem C5_theorem (env : Env) (hex : env.inputExists = true) (hd : env.decodeOk = true)
    (hs : env.system ≠ "Darwin") :
    ∃ img1024,
      (runFS (runTrace env)).lookup "./tauri-icons/icons/icon.icns"
        = some (FileContent.png img1024) ∧
      img1024.width = 1024 ∧ img1024.height = 1024 ∧
      (runFS (runTrace env)).lookup "./tauri-icons/icons/icon.png"
        = some (FileContent.png img1024) := by
  obtain ⟨ie, dok, ⟨w, h, m, px⟩, sys, bun⟩ := env
  simp only at hex hd hs ⊢
  subst hex hd
  rw [show runTrace ⟨true, true, ⟨w, h, m, px⟩, sys, bun⟩
      = (mainFn ⟨true, true, ⟨w, h, m, px⟩, sys, bun⟩ "icon.png" "./tauri-icons").1 from rfl,
    run_nonDarwin _ sys bun hs]
  cases m <;> exact ⟨_, rfl, rfl, rfl, rfl⟩

/-- Witness for C5 at the concrete Linux run. -/
theorem C5_witness :
    ∃ img1024,
      (runFS (runTrace envLinux)).lookup "./tauri-icons/icons/icon.icns"
        = some (FileContent.png img1024) ∧
      img1024.width = 1024 ∧ img1024.height = 1024 ∧
      (runFS (runTrace envLinux)).lookup "./tauri-icons/icons/icon.png"
        = some (FileContent.png img1024) :=
  C5_theorem envLinux rfl rfl (by decide)

/-- C7: for every source image, the Android packager writes exactly 15
files — 5 density directories, each holding a plain launcher icon, a
foreground variant that is the very same resized image under a distinct
name, and the round-masked variant — all at the density's declared
square size (48, 72, 96, 144, 192). -/
theorem C7_theorem (orig : Img) :
    writeEvents (generate_android_icons orig "./tauri-icons")
      = [("./tauri-icons/android/mipmap-mdpi/ic_launcher.png",
          .png (orig.resize 48 48)),
         ("./tauri-icons/android/mipmap-mdpi/ic_launcher_foreground.png",
          .png (orig.resize 48 48)),
         ("./tauri-icons/android/mipmap-mdpi/ic_launcher_round.png",
          .png (make_round_image (orig.resize 48 48))),
         ("./tauri-icons/android/mipmap-hdpi/ic_launcher.png",
          .png (orig.resize 72 72)),
         ("./tauri-icons/android/mipmap-hdpi/ic_launcher_foreground.png",
          .png (orig.resize 72 72)),
         ("./tauri-icons/android/mipmap-hdpi/ic_launcher_round.png",
          .png (make_round_image (orig.resize 72 72))),
         ("./tauri-icons/android/mipmap-xhdpi/ic_launcher.png",
          .png (orig.resize 96 96)),
         ("./tauri-icons/android/mipmap-xhdpi/ic_launcher_foreground.png",
          .png (orig.resize 96 96)),
         ("./tauri-icons/android/mipmap-xhdpi/ic_launcher_round.png",
          .png (make_round_image (orig.resize 96 96))),
         ("./tauri-icons/android/mipmap-xxhdpi/ic_launcher.png",
          .png (orig.resize 144 144)),
         ("./tauri-icons/android/mipmap-xxhdpi/ic_launcher_foreground.png",
          .png (orig.resize 144 144)),
         ("./tauri-icons/android/mipmap-xxhdpi/ic_launcher_round.png",
          .png (make_round_image (orig.resize 144 144))),
         ("./tauri-icons/android/mipmap-xxxhdpi/ic_launcher.png",
          .png (orig.resize 192 192)),
         ("./tauri-icons/android/mipmap-xxxhdpi/ic_launcher_foreground.png",
          .png (orig.resize 192 192)),
         ("./tauri-icons/android/mipmap-xxxhdpi/ic_launcher_round.png",
          .png (make_round_image (orig.resize 192 192)))] ∧
    (writeEvents (generate_android_icons orig "./tauri-icons")).map
        (fun pc => pc.2.frames)
      = [[(48, 48)], [(48, 48)], [(48, 48)], [(72, 72)], [(72, 72)], [(72, 72)],
         [(96, 96)], [(96, 96)], [(96, 96)], [(144, 144)], [(144, 144)], [(144, 144)],
         [(192, 192)], [(192, 192)], [(192, 192)]] :=
  ⟨rfl, rfl⟩

/-- C10: in every run that decodes its input, the run's very first
observable action is the orchestrator's own decode of the input path,
and the ICNS packager — handed the path, not the loaded image — performs
its own decode of the same path and its own RGBA conversion, so each of
the 10 staged renditions is four-channel regardless of the input
mode. -/
theorem C10_theorem (env : Env) (hex : env.inputExists = true) (hd : env.decodeOk = true) :
    (runTrace env).head? = some (Ev.openF "icon.png") ∧
    openedPaths (generate_icns env "icon.png" "./tauri-icons").1 = ["icon.png"] ∧
    ((writeEvents (generate_icns env "icon.png" "./tauri-icons").1).filter
        fun pc => strPrefix "./tauri-icons/icons/icons.iconset/" pc.1).map
        (fun pc => pc.2.cmode)
      = List.replicate 10 PyMode.RGBA := by
  obtain ⟨ie, dok, ⟨w, h, m, px⟩, sys, bun⟩ := env
  simp only at hex hd ⊢
  subst hex hd
  by_cases hs : sys = "Darwin"
  · subst hs
    refine ⟨?_, ?_, ?_⟩
    · cases m <;> cases bun <;> rfl
    · cases m <;> cases bun <;> rfl
    · cases m <;> cases bun <;> rfl
  · rw [show runTrace ⟨true, true, ⟨w, h, m, px⟩, sys, bun⟩
        = (mainFn ⟨true, true, ⟨w, h, m, px⟩, sys, bun⟩ "icon.png" "./tauri-icons").1
        from rfl,
      run_nonDarwin _ sys bun hs, icns_nonDarwin true ⟨w, h, m, px⟩ sys bun hs]
    refine ⟨?_, ?_, ?_⟩
    · cases m <;> rfl
    · cases m <;> rfl
    · cases m <;> rfl

/-- Witness for C10 at the concrete Linux run. -/
theorem C10_witness :
    (runTrace envLinux).head? = some (Ev.openF "icon.png") ∧
    openedPaths (generate_icns envLinux "icon.png" "./tauri-icons").1 = ["icon.png"] ∧
    ((writeEvents (generate_icns envLinux "icon.png" "./tauri-icons").1).filter
        fun pc => strPrefix "./tauri-icons/icons/icons.iconset/" pc.1).map
        (fun pc => pc.2.cmode)
      = List.replicate 10 PyMode.RGBA :=
  C10_theorem envLinux rfl rfl
